import Mathlib

/-!
Shallow embedding of the SKS processing engine
(`ta_services/secure_key_services/src/processing.c`) together with the
attribute accessors of `attributes.h` that the processing entry points use.

Provider (GPD TEE) calls are synchronous and opaque to the core, so each
provider call is represented by an oracle argument giving the result the
provider returned on that call.  Code of the repository that is not under
`src/` (the serializer, the pkcs11_token state accessors, the
`tee_init_*`/`tee_ae_*`/`tee_release_*` helpers and the policy gate) is
modelled from the specification; each such definition is marked in its
doc comment.
-/

set_option autoImplicit false

namespace SKS

/-- Session processing states (`PKCS11_SESSION_*`). -/
inductive ProcState
  | READY
  | ENCRYPTING
  | DECRYPTING
  | SIGNING
  | VERIFYING
deriving DecidableEq, Repr

/-- Mechanism identifiers (`SKS_CKM_*`), with the `SKS_UNDEFINED_ID`
sentinel used for `session->proc_id` when no operation is active. -/
inductive Mech
  | UNDEFINED
  | AES_ECB
  | AES_CBC
  | AES_CBC_PAD
  | AES_CTS
  | AES_CTR
  | AES_CCM
  | AES_GCM
  | AES_CMAC
  | AES_CMAC_GENERAL
  | AES_XCBC_MAC
  | MD5_HMAC
  | SHA1_HMAC
  | SHA224_HMAC
  | SHA256_HMAC
  | SHA384_HMAC
  | SHA512_HMAC
deriving DecidableEq, Repr

/-- SKS return codes (`SKS_*` / `SKS_CKR_*`) used by the processing code. -/
inductive Rv
  | OK
  | GENERAL
  | BAD_PARAM
  | SHORT_BUFFER
  | MEMORY
  | NOT_FOUND
  | FAILED
  | ERROR
  | SESSION_HANDLE_INVALID
  | KEY_HANDLE_INVALID
  | OPERATION_ACTIVE
  | OPERATION_NOT_INITIALIZED
  | MECHANISM_INVALID
  | MECHANISM_PARAM_INVALID
  | ATTRIBUTE_TYPE_INVALID
  | ATTRIBUTE_VALUE_INVALID
  | SIGNATURE_INVALID
  | KEY_FUNCTION_NOT_PERMITTED
  | USER_NOT_LOGGED_IN
  | TEMPLATE_INCONSISTENT
deriving DecidableEq, Repr

/-- Results of GPD TEE provider calls (`TEE_Result`), abstracted to the
cases the core distinguishes. -/
inductive TeeResult
  | Success
  | ShortBuffer
  | MacInvalid
  | BadParameters
  | OutOfMemory
  | Generic
deriving DecidableEq, Repr

/-- Modelled from the spec: `tee2sks_error` (in `sks_helpers.c`, not under
`src/`) is the standard mapping from provider errors into the core's error
taxonomy; success maps to `SKS_OK` and every failure maps to a non-OK code. -/
def tee2sks_error : TeeResult → Rv
  | .Success => .OK
  | .ShortBuffer => .SHORT_BUFFER
  | .MacInvalid => .SIGNATURE_INVALID
  | .BadParameters => .BAD_PARAM
  | .OutOfMemory => .MEMORY
  | .Generic => .GENERAL

/-- Computation that either returns a value or hits `TEE_Panic` (or an
equivalent fatal abort such as dereferencing a null session pointer). -/
inductive Outcome (α : Type)
  | ok (a : α)
  | panic
deriving DecidableEq, Repr

/-!
## Attribute accessors (`attributes.h`)

Attribute id and constant values: the numeric values come from `sks_ta.h`,
which is not under `src/`; the values chosen here are symbolic, only their
distinctness matters to the embedded code.
-/

def SKS_CKA_CLASS : Nat := 0x000
def SKS_CKA_TOKEN : Nat := 0x001
def SKS_CKA_PRIVATE : Nat := 0x002
def SKS_CKA_MODIFIABLE : Nat := 0x170
def SKS_CKA_COPYABLE : Nat := 0x171
def SKS_CKA_DESTROYABLE : Nat := 0x172
def SKS_CKA_ENCRYPT : Nat := 0x104
def SKS_CKA_DECRYPT : Nat := 0x105
def SKS_CKA_WRAP : Nat := 0x106
def SKS_CKA_UNWRAP : Nat := 0x107
def SKS_CKA_SIGN : Nat := 0x108
def SKS_CKA_VERIFY : Nat := 0x10A
def SKS_CKA_DERIVE : Nat := 0x10C
def SKS_CKA_EXTRACTABLE : Nat := 0x162
def SKS_CKA_LOCAL : Nat := 0x163
def SKS_CKA_NEVER_EXTRACTABLE : Nat := 0x164
def SKS_CKA_ALWAYS_SENSITIVE : Nat := 0x165
def SKS_CKA_SENSITIVE : Nat := 0x103
def SKS_CKA_KEY_TYPE : Nat := 0x100
def SKS_CKA_VALUE : Nat := 0x011
def SKS_CKA_VALUE_LEN : Nat := 0x161

def SKS_CKO_SECRET_KEY : Nat := 0x004

def SKS_CKK_AES : Nat := 0x01F
def SKS_CKK_GENERIC_SECRET : Nat := 0x010
def SKS_CKK_MD5_HMAC : Nat := 0x028
def SKS_CKK_SHA_1_HMAC : Nat := 0x029
def SKS_CKK_SHA224_HMAC : Nat := 0x02A
def SKS_CKK_SHA256_HMAC : Nat := 0x02B
def SKS_CKK_SHA384_HMAC : Nat := 0x02C
def SKS_CKK_SHA512_HMAC : Nat := 0x02D

def SKS_UNDEFINED_ID : Nat := 0xFFFFFFFF

/-- Serialized attribute entries of a blob: `{id, size, value}` triples,
with `size = value.length`. -/
abbrev Blob := List (Nat × List Nat)

/-- Little-endian decode of the first four bytes of an attribute value,
as the C code does when it copies an attribute into a `uint32_t`. -/
def u32le : List Nat → Nat
  | a :: b :: c :: d :: _ =>
      a % 256 + 256 * (b % 256) + 65536 * (c % 256) + 16777216 * (d % 256)
  | _ => 0

/-- Little-endian encode of a 32-bit value into four bytes. -/
def u32bytes (n : Nat) : List Nat :=
  [n % 256, n / 256 % 256, n / 65536 % 256, n / 16777216 % 256]

/-- Modelled from the spec (`attributes.c` is not under `src/`):
`get_attribute_ptr` returns the first occurrence of the attribute,
without copying. -/
def get_attribute_ptr (head : Blob) (attr_id : Nat) : Option (List Nat) :=
  (head.find? (fun e => e.1 = attr_id)).map (fun e => e.2)

/-- Modelled from the spec (`attributes.c` is not under `src/`):
`get_attribute` copies the value with a size check: `NOT_FOUND` when the
attribute is absent, `SHORT_BUFFER` when a size was supplied and does not
match, otherwise `OK` with the value. -/
def get_attribute (head : Blob) (attr_id : Nat) (attr_size : Option Nat) :
    Rv × Option (List Nat) :=
  match get_attribute_ptr head attr_id with
  | none => (.NOT_FOUND, none)
  | some v =>
      match attr_size with
      | some sz => if sz = v.length then (.OK, some v) else (.SHORT_BUFFER, none)
      | none => (.OK, some v)

/-- `get_class`, the variant of `attributes.h` without header tags
(`#else` branch, lines 115-124): a lookup of `SKS_CKA_CLASS` with a 4-byte
size check, returning the `SKS_UNDEFINED_ID` sentinel on any failure. -/
def get_class (head : Blob) : Nat :=
  match get_attribute head SKS_CKA_CLASS (some 4) with
  | (.OK, some v) => u32le v
  | _ => SKS_UNDEFINED_ID

/-- `get_type`, same variant as `get_class`: lookup of `SKS_CKA_KEY_TYPE`
with a 4-byte size check, `SKS_UNDEFINED_ID` on failure. -/
def get_type (head : Blob) : Nat :=
  match get_attribute head SKS_CKA_KEY_TYPE (some 4) with
  | (.OK, some v) => u32le v
  | _ => SKS_UNDEFINED_ID

/-- Attribute-list header of the boolean-bitfield build variant
(`SKS_SHEAD_WITH_BOOLPROPS`): a 64-bit bitfield split into two 32-bit
words, plus the serialized entries. -/
structure AttrsHead where
  boolpropl : Nat
  boolproph : Nat
  entries : Blob
deriving DecidableEq, Repr

/-- Modelled from the spec (`sks_helpers.c` is not under `src/`):
`sks_attr2boolprop_shift` is a closed compile-time table mapping boolean
attribute ids to bit positions; any id outside the table yields a negative
shift. -/
def sks_attr2boolprop_shift (attr : Nat) : Int :=
  if attr = SKS_CKA_TOKEN then 0
  else if attr = SKS_CKA_PRIVATE then 1
  else if attr = SKS_CKA_MODIFIABLE then 2
  else if attr = SKS_CKA_COPYABLE then 3
  else if attr = SKS_CKA_DESTROYABLE then 4
  else if attr = SKS_CKA_ENCRYPT then 5
  else if attr = SKS_CKA_DECRYPT then 6
  else if attr = SKS_CKA_WRAP then 7
  else if attr = SKS_CKA_UNWRAP then 8
  else if attr = SKS_CKA_SIGN then 9
  else if attr = SKS_CKA_VERIFY then 10
  else if attr = SKS_CKA_DERIVE then 11
  else if attr = SKS_CKA_EXTRACTABLE then 12
  else if attr = SKS_CKA_LOCAL then 13
  else if attr = SKS_CKA_NEVER_EXTRACTABLE then 14
  else if attr = SKS_CKA_ALWAYS_SENSITIVE then 15
  else if attr = SKS_CKA_SENSITIVE then 16
  else -1

/-- `get_bool`, the boolean-bitfield variant of `attributes.h`
(lines 138-149): `TEE_Panic` when the attribute has no boolean bit
mapping, otherwise the bit read from the 64-bit header bitfield. -/
def get_bool (head : AttrsHead) (attr_id : Nat) : Outcome Bool :=
  let shift := sks_attr2boolprop_shift attr_id
  if shift < 0 then .panic
  else if shift > 31 then .ok (head.boolproph.testBit (shift - 32).toNat)
  else .ok (head.boolpropl.testBit shift.toNat)

/-!
## Session state and release (`processing.c`)
-/

/-- Per-session processing state: `processing` state value, active
mechanism id (`proc_id`), whether the provider operation handle
(`tee_op_handle`) is non-null, and the AE scratch holding pending
plaintext during CCM/GCM decryption. -/
structure Session where
  state : ProcState
  proc_id : Mech
  tee_op_handle : Bool
  scratch : List Nat
deriving DecidableEq, Repr

/-- Modelled from the spec (`pkcs11_token.c` is not under `src/`):
`check_processing_state` is zero exactly when the session is in the given
state; `true` here models the nonzero (mismatch) return. -/
def check_processing_state (session : Session) (state : ProcState) : Bool :=
  session.state ≠ state

/-- Modelled from the spec (`pkcs11_token.c` is not under `src/`):
`set_processing_state` succeeds when returning to `READY` (the release
path) and when starting an operation from `READY`; only `READY` permits
starting a new operation. `none` models a nonzero return. -/
def set_processing_state (session : Session) (state : ProcState) :
    Option Session :=
  if state = .READY then some { session with state := .READY }
  else if session.state = .READY then some { session with state := state }
  else none

/-- `release_active_processing` (processing.c lines 22-47): free the AE
context/scratch for CTR/GCM/CCM (the `tee_release_*_operation` helpers,
modelled from the spec), clear `proc_id` to `SKS_UNDEFINED_ID`, free the
provider operation handle, and force the state back to `READY`. -/
def release_active_processing (session : Session) : Session :=
  let scratch :=
    match session.proc_id with
    | .AES_CTR | .AES_GCM | .AES_CCM => []
    | _ => session.scratch
  { state := .READY, proc_id := .UNDEFINED, tee_op_handle := false,
    scratch := scratch }

/-!
## Key loading (`processing.c`: `get_tee_object_info`, `load_key`)
-/

/-- A live key object (`struct sks_object`): its serialized attributes and
whether its provider transient-key handle (`key_handle`) is non-null. -/
structure SksObject where
  attributes : Blob
  key_handle : Bool
deriving DecidableEq, Repr

/-- `get_tee_object_info` (processing.c lines 333-373): map `SKS_CKK_*` to
a GPD TEE object type; only the secret-key types are accepted.  The model
keeps only the SKS return code; the produced TEE type and attribute id do
not feed back into any decision of the core. -/
def get_tee_object_info (head : Blob) : Rv :=
  let t := get_type head
  if t = SKS_CKK_AES ∨ t = SKS_CKK_GENERIC_SECRET ∨ t = SKS_CKK_MD5_HMAC ∨
     t = SKS_CKK_SHA_1_HMAC ∨ t = SKS_CKK_SHA224_HMAC ∨
     t = SKS_CKK_SHA256_HMAC ∨ t = SKS_CKK_SHA384_HMAC ∨
     t = SKS_CKK_SHA512_HMAC then
    .OK
  else
    .ATTRIBUTE_TYPE_INVALID

/-- `load_key` (processing.c lines 375-418).  `allocRes` and `popRes` are
the provider's results for `TEE_AllocateTransientObject` and
`TEE_PopulateTransientObject`.  When the transient-object allocation
fails, the source executes `return rv;;` — `rv` is still `SKS_OK` from
`get_tee_object_info` at that point, so the provider error `res` is
dropped instead of being passed through `tee2sks_error`. -/
def load_key (obj : SksObject) (allocRes popRes : TeeResult) :
    Outcome (Rv × SksObject) :=
  if obj.key_handle then .ok (.OK, obj)
  else
    let rv := get_tee_object_info obj.attributes
    if rv ≠ .OK then .ok (rv, obj)
    else
      match get_attribute_ptr obj.attributes SKS_CKA_VALUE with
      | none => .panic
      | some _value =>
          if allocRes ≠ .Success then .ok (rv, obj)
          else if popRes ≠ .Success then
            .ok (tee2sks_error popRes, { obj with key_handle := false })
          else .ok (rv, { obj with key_handle := true })

/-!
## Operation parameter selection (`processing.c`: `tee_operarion_params`)
-/

/-- The `SKS_FUNCTION_*` values with which the cipher and sign/verify
entry points invoke `tee_operarion_params`. -/
inductive SksFunction
  | ENCRYPT
  | DECRYPT
  | SIGN
  | VERIFY
deriving DecidableEq, Repr

/-- Mechanism parameters (`struct sks_attribute_head`): the mechanism id
and the raw parameter bytes (`size` is `data.length`). -/
structure ProcParams where
  id : Mech
  data : List Nat
deriving DecidableEq, Repr

/-- `tee_operarion_params` (processing.c lines 166-330): select the
provider algorithm/mode/size for the mechanism, key type and function.
Panics when the key has no `SKS_CKA_VALUE` attribute and when the session
already holds a provider operation handle.  `allocRes` is the provider's
result for `TEE_AllocateOperation`. -/
def tee_operarion_params (session : Session) (proc_params : ProcParams)
    (sks_key : SksObject) (function : SksFunction) (allocRes : TeeResult) :
    Outcome (Rv × Session) :=
  match get_attribute_ptr sks_key.attributes SKS_CKA_VALUE with
  | none => .panic
  | some _value =>
      match get_attribute sks_key.attributes SKS_CKA_KEY_TYPE none with
      | (.OK, some ktBytes) =>
          let key_type := u32le ktBytes
          let sel : Rv :=
            if key_type = SKS_CKK_AES then
              if function = .ENCRYPT ∨ function = .DECRYPT then
                match proc_params.id with
                | .AES_ECB | .AES_CBC | .AES_CTR | .AES_CTS
                | .AES_CCM | .AES_GCM => .OK
                | _ => .ATTRIBUTE_TYPE_INVALID
              else
                match proc_params.id with
                | .AES_CMAC | .AES_CMAC_GENERAL | .AES_XCBC_MAC => .OK
                | _ => .ATTRIBUTE_TYPE_INVALID
            else if key_type = SKS_CKK_GENERIC_SECRET ∨
                    key_type = SKS_CKK_MD5_HMAC ∨
                    key_type = SKS_CKK_SHA_1_HMAC ∨
                    key_type = SKS_CKK_SHA224_HMAC ∨
                    key_type = SKS_CKK_SHA256_HMAC ∨
                    key_type = SKS_CKK_SHA384_HMAC ∨
                    key_type = SKS_CKK_SHA512_HMAC then
              if function = .SIGN ∨ function = .VERIFY then
                match proc_params.id with
                | .MD5_HMAC =>
                    if key_type = SKS_CKK_GENERIC_SECRET ∨
                       key_type = SKS_CKK_MD5_HMAC then .OK
                    else .ATTRIBUTE_TYPE_INVALID
                | .SHA1_HMAC =>
                    if key_type = SKS_CKK_GENERIC_SECRET ∨
                       key_type = SKS_CKK_SHA_1_HMAC then .OK
                    else .ATTRIBUTE_TYPE_INVALID
                | .SHA224_HMAC =>
                    if key_type = SKS_CKK_GENERIC_SECRET ∨
                       key_type = SKS_CKK_SHA224_HMAC then .OK
                    else .ATTRIBUTE_TYPE_INVALID
                | .SHA256_HMAC =>
                    if key_type = SKS_CKK_GENERIC_SECRET ∨
                       key_type = SKS_CKK_SHA256_HMAC then .OK
                    else .ATTRIBUTE_TYPE_INVALID
                | .SHA384_HMAC =>
                    if key_type = SKS_CKK_GENERIC_SECRET ∨
                       key_type = SKS_CKK_SHA384_HMAC then .OK
                    else .ATTRIBUTE_TYPE_INVALID
                | .SHA512_HMAC =>
                    if key_type = SKS_CKK_GENERIC_SECRET ∨
                       key_type = SKS_CKK_SHA512_HMAC then .OK
                    else .ATTRIBUTE_TYPE_INVALID
                | _ => .ATTRIBUTE_TYPE_INVALID
              else .FAILED
            else .FAILED
          if sel ≠ .OK then .ok (sel, session)
          else if session.tee_op_handle then .panic
          else if allocRes ≠ .Success then
            .ok (tee2sks_error allocRes, session)
          else .ok (.OK, { session with tee_op_handle := true })
      | _ => .ok (.ERROR, session)

/-!
## Entry points (`processing.c`)

Each entry point first parses the control buffer and resolves the session
handle; `Lookup` abstracts the result of that prefix (the serializer and
`sks_handle2session` are not under `src/`).  A resolved session is passed
separately.
-/

/-- Outcome of control-argument parsing and session-handle resolution:
`noCtrl` models a null control parameter, `parseFail` a serializer error,
`noSession` a handle that `sks_handle2session` does not resolve, and
`found` a resolved session. -/
inductive Lookup
  | noCtrl
  | parseFail (rv : Rv)
  | noSession
  | found
deriving DecidableEq, Repr

/-- A caller data buffer (`TEE_Param` memref); its size is `data.length`. -/
structure Buf where
  data : List Nat
deriving DecidableEq, Repr

/-- Oracle for one provider data call (`TEE_AEUpdate`, `TEE_CipherUpdate`,
`TEE_CipherDoFinal`, `TEE_MACComputeFinal`, `TEE_MACCompareFinal`): the
`TEE_Result`, the bytes written into the caller's output buffer on
success, and the value stored into the output-size parameter. -/
structure ProvOut where
  res : TeeResult
  written : List Nat
  out_size : Nat
deriving DecidableEq, Repr

/-- Modelled from the spec: the provider writes into the caller's output
buffer only when the call succeeds. -/
def provWrite (outBuf : Option Buf) (prov : ProvOut) : Option Buf :=
  if prov.res = .Success then outBuf.map (fun _ => ⟨prov.written⟩) else outBuf

/-- Modelled from the spec (`tee_ae_decrypt_update` is not under `src/`):
during CCM/GCM decryption every produced plaintext byte is appended to the
per-session scratch; `rv` is the helper's return code and `produced` the
plaintext it accumulates on success. -/
structure AeUpd where
  rv : Rv
  produced : List Nat
deriving DecidableEq, Repr

/-- Modelled from the spec (`tee_ae_encrypt_final` and
`tee_ae_decrypt_final` are not under `src/`): the AE final helper returns
a code, writes `written` into the caller's buffer on success, and stores
the required/produced size into the output-size parameter. -/
structure AeFin where
  rv : Rv
  written : List Nat
  out_size : Nat
deriving DecidableEq, Repr

/-- Intermediate state of an update/final entry point just before the
common error/release tail: code so far, session, caller output buffer
content, and the local `out_size` variable. -/
structure Step where
  rv : Rv
  s : Session
  out : Option Buf
  osize : Nat
deriving DecidableEq, Repr

/-- Result of an update/final entry point: the returned code, the session
after the call, the caller's output buffer content after the call, and
`out->memref.size` after the call (`none` when no output buffer was
supplied). -/
structure UFResult where
  rv : Rv
  session : Session
  out : Option Buf
  out_report : Option Nat
deriving DecidableEq, Repr

/-- Oracle results for the provider calls and policy-gate checks made by
the init entry points.  `parentProcRv` and `parentTokenRv` are the results
of `check_parent_attrs_against_processing` and
`check_parent_attrs_against_token` (the policy gate, not under `src/`);
`ctrInitRv`/`ccmInitRv`/`gcmInitRv` those of `tee_init_{ctr,ccm,gcm}_operation`
(not under `src/`). -/
structure InitOracle where
  allocOpRes : TeeResult
  setKeyRes : TeeResult
  allocTransRes : TeeResult
  populateRes : TeeResult
  ctrInitRv : Rv
  ccmInitRv : Rv
  gcmInitRv : Rv
  parentProcRv : Rv
  parentTokenRv : Rv
deriving DecidableEq, Repr

/-- `entry_cipher_init` (processing.c lines 425-596).  The `bail:` label
runs `release_active_processing(session)` whenever `rv` is nonzero — with
a null session pointer when the handle did not resolve, which dereferences
null (modelled as a panic), and on the `OPERATION_ACTIVE` rejection, which
releases the already-active operation. -/
def entry_cipher_init (lk : Lookup) (s : Session) (decrypt : Bool)
    (proc_params : ProcParams) (obj? : Option SksObject) (o : InitOracle) :
    Outcome (Rv × Session × Option SksObject) :=
  match lk with
  | .noCtrl => .ok (.BAD_PARAM, s, obj?)
  | .parseFail rv => .ok (rv, s, obj?)
  | .noSession => .panic
  | .found =>
    if check_processing_state s .READY then
      .ok (.OPERATION_ACTIVE, release_active_processing s, obj?)
    else
      match set_processing_state s
          (if decrypt then .DECRYPTING else .ENCRYPTING) with
      | none => .ok (.OPERATION_ACTIVE, release_active_processing s, obj?)
      | some s1 =>
        match obj? with
        | none => .ok (.KEY_HANDLE_INVALID, release_active_processing s1, none)
        | some obj =>
          if o.parentProcRv ≠ .OK then
            .ok (o.parentProcRv, release_active_processing s1, some obj)
          else if o.parentTokenRv ≠ .OK then
            .ok (o.parentTokenRv, release_active_processing s1, some obj)
          else
            match tee_operarion_params s1 proc_params obj
                (if decrypt then .DECRYPT else .ENCRYPT) o.allocOpRes with
            | .panic => .panic
            | .ok (rvp, s2) =>
              if rvp ≠ .OK then
                .ok (rvp, release_active_processing s2, some obj)
              else if get_class obj.attributes = SKS_CKO_SECRET_KEY then
                match load_key obj o.allocTransRes o.populateRes with
                | .panic => .panic
                | .ok (rvk, obj2) =>
                  if rvk ≠ .OK then
                    .ok (rvk, release_active_processing s2, some obj2)
                  else if o.setKeyRes ≠ .Success then
                    .ok (tee2sks_error o.setKeyRes,
                         release_active_processing s2, some obj2)
                  else
                    match proc_params.id with
                    | .AES_ECB =>
                        if proc_params.data.length ≠ 0 then
                          .ok (.MECHANISM_PARAM_INVALID,
                               release_active_processing s2, some obj2)
                        else
                          .ok (.OK, { s2 with proc_id := proc_params.id },
                               some obj2)
                    | .AES_CBC | .AES_CBC_PAD | .AES_CTS =>
                        if proc_params.data.length ≠ 16 then
                          .ok (.MECHANISM_PARAM_INVALID,
                               release_active_processing s2, some obj2)
                        else
                          .ok (.OK, { s2 with proc_id := proc_params.id },
                               some obj2)
                    | .AES_CTR =>
                        if o.ctrInitRv ≠ .OK then
                          .ok (o.ctrInitRv, release_active_processing s2,
                               some obj2)
                        else
                          .ok (.OK, { s2 with proc_id := proc_params.id },
                               some obj2)
                    | .AES_CCM =>
                        if o.ccmInitRv ≠ .OK then
                          .ok (o.ccmInitRv, release_active_processing s2,
                               some obj2)
                        else
                          .ok (.OK, { s2 with proc_id := proc_params.id },
                               some obj2)
                    | .AES_GCM =>
                        if o.gcmInitRv ≠ .OK then
                          .ok (o.gcmInitRv, release_active_processing s2,
                               some obj2)
                        else
                          .ok (.OK, { s2 with proc_id := proc_params.id },
                               some obj2)
                    | _ => .panic
              else .ok (.FAILED, release_active_processing s2, some obj)

/-- The mechanism switch of `entry_cipher_update` (processing.c lines
632-661): CCM/GCM decrypt goes through `tee_ae_decrypt_update` and forces
the local `out_size` to 0; CCM/GCM encrypt calls `TEE_AEUpdate`; every
other mechanism calls `TEE_CipherUpdate`. -/
def cipher_update_step (s : Session) (decrypt : Bool)
    (inBuf outBuf : Option Buf) (ae : AeUpd) (prov : ProvOut) : Step :=
  if s.proc_id = .AES_CCM ∨ s.proc_id = .AES_GCM then
    if decrypt then
      ⟨ae.rv,
       { s with scratch :=
           if ae.rv = .OK then s.scratch ++ ae.produced else s.scratch },
       outBuf, 0⟩
    else
      ⟨tee2sks_error prov.res, s, provWrite outBuf prov, prov.out_size⟩
  else
    ⟨tee2sks_error prov.res, s, provWrite outBuf prov, prov.out_size⟩

/-- `entry_cipher_update` (processing.c lines 603-673).  `ae` is the
oracle for `tee_ae_decrypt_update`, `prov` the one for `TEE_AEUpdate` /
`TEE_CipherUpdate`. -/
def entry_cipher_update (lk : Lookup) (s : Session) (decrypt : Bool)
    (inBuf outBuf : Option Buf) (ae : AeUpd) (prov : ProvOut) : UFResult :=
  match lk with
  | .noCtrl => ⟨.BAD_PARAM, s, outBuf, outBuf.map (fun b => b.data.length)⟩
  | .parseFail rv => ⟨rv, s, outBuf, outBuf.map (fun b => b.data.length)⟩
  | .noSession =>
      ⟨.SESSION_HANDLE_INVALID, s, outBuf, outBuf.map (fun b => b.data.length)⟩
  | .found =>
    if check_processing_state s
        (if decrypt then .DECRYPTING else .ENCRYPTING) then
      ⟨.OPERATION_NOT_INITIALIZED, s, outBuf,
       outBuf.map (fun b => b.data.length)⟩
    else
      let step := cipher_update_step s decrypt inBuf outBuf ae prov
      let rv := if outBuf.isNone ∧ step.rv = .SHORT_BUFFER then .BAD_PARAM
                else step.rv
      if rv ≠ .OK ∧ rv ≠ .SHORT_BUFFER then
        ⟨rv, release_active_processing step.s, step.out,
         outBuf.map (fun b => b.data.length)⟩
      else
        ⟨rv, step.s, step.out,
         if outBuf.isSome then some step.osize else none⟩

/-- The mechanism switch of `entry_cipher_final` (processing.c lines
710-743): for CCM/GCM a non-empty input is rejected with `BAD_PARAM`,
otherwise the AE final helper runs; every other mechanism passes input
and output through to `TEE_CipherDoFinal`. -/
def cipher_final_step (s : Session) (decrypt : Bool)
    (inBuf outBuf : Option Buf) (fin : AeFin) (prov : ProvOut) : Step :=
  if s.proc_id = .AES_CCM ∨ s.proc_id = .AES_GCM then
    if (inBuf.map (fun b => b.data.length)).getD 0 ≠ 0 then
      ⟨.BAD_PARAM, s, outBuf, (outBuf.map (fun b => b.data.length)).getD 0⟩
    else
      ⟨fin.rv, s,
       (if fin.rv = .OK then outBuf.map (fun _ => ⟨fin.written⟩)
        else outBuf),
       fin.out_size⟩
  else
    ⟨tee2sks_error prov.res, s, provWrite outBuf prov, prov.out_size⟩

/-- `entry_cipher_final` (processing.c lines 680-756).  `fin` is the
oracle for `tee_ae_decrypt_final` / `tee_ae_encrypt_final` (chosen by
`decrypt`), `prov` the one for `TEE_CipherDoFinal`. -/
def entry_cipher_final (lk : Lookup) (s : Session) (decrypt : Bool)
    (inBuf outBuf : Option Buf) (fin : AeFin) (prov : ProvOut) : UFResult :=
  match lk with
  | .noCtrl => ⟨.BAD_PARAM, s, outBuf, outBuf.map (fun b => b.data.length)⟩
  | .parseFail rv => ⟨rv, s, outBuf, outBuf.map (fun b => b.data.length)⟩
  | .noSession =>
      ⟨.SESSION_HANDLE_INVALID, s, outBuf, outBuf.map (fun b => b.data.length)⟩
  | .found =>
    if check_processing_state s
        (if decrypt then .DECRYPTING else .ENCRYPTING) then
      ⟨.OPERATION_NOT_INITIALIZED, s, outBuf,
       outBuf.map (fun b => b.data.length)⟩
    else
      let step := cipher_final_step s decrypt inBuf outBuf fin prov
      let rv := if outBuf.isNone ∧ step.rv = .SHORT_BUFFER then .BAD_PARAM
                else step.rv
      let report := if outBuf.isSome ∧ (rv = .OK ∨ rv = .SHORT_BUFFER) then
                      outBuf.map (fun _ => step.osize)
                    else outBuf.map (fun b => b.data.length)
      if rv ≠ .SHORT_BUFFER then
        ⟨rv, release_active_processing step.s, step.out, report⟩
      else
        ⟨rv, step.s, step.out, report⟩

/-- `entry_signverify_init` (processing.c lines 921-1064).  Unlike
`entry_cipher_init`, the `bail:` label guards the release with
`rv && session`, so an unresolved session handle returns without a null
dereference.  The second mechanism switch (`TEE_MACInit`) accepts exactly
the mechanisms the first one does, so its default branch is unreachable. -/
def entry_signverify_init (lk : Lookup) (s : Session) (sign : Bool)
    (proc_params : ProcParams) (obj? : Option SksObject) (o : InitOracle) :
    Outcome (Rv × Session × Option SksObject) :=
  match lk with
  | .noCtrl => .ok (.BAD_PARAM, s, obj?)
  | .parseFail rv => .ok (rv, s, obj?)
  | .noSession => .ok (.SESSION_HANDLE_INVALID, s, obj?)
  | .found =>
    if check_processing_state s .READY then
      .ok (.OPERATION_ACTIVE, release_active_processing s, obj?)
    else
      match set_processing_state s
          (if sign then .SIGNING else .VERIFYING) with
      | none => .ok (.OPERATION_ACTIVE, release_active_processing s, obj?)
      | some s1 =>
        match obj? with
        | none => .ok (.KEY_HANDLE_INVALID, release_active_processing s1, none)
        | some obj =>
          if o.parentProcRv ≠ .OK then
            .ok (o.parentProcRv, release_active_processing s1, some obj)
          else if o.parentTokenRv ≠ .OK then
            .ok (o.parentTokenRv, release_active_processing s1, some obj)
          else
            match tee_operarion_params s1 proc_params obj
                (if sign then .SIGN else .VERIFY) o.allocOpRes with
            | .panic => .panic
            | .ok (rvp, s2) =>
              if rvp ≠ .OK then
                .ok (rvp, release_active_processing s2, some obj)
              else
                match proc_params.id with
                | .AES_CMAC | .AES_CMAC_GENERAL | .MD5_HMAC | .SHA1_HMAC
                | .SHA224_HMAC | .SHA256_HMAC | .SHA384_HMAC | .SHA512_HMAC
                | .AES_XCBC_MAC =>
                  match load_key obj o.allocTransRes o.populateRes with
                  | .panic => .panic
                  | .ok (rvk, obj2) =>
                    if rvk ≠ .OK then
                      .ok (rvk, release_active_processing s2, some obj2)
                    else if o.setKeyRes ≠ .Success then
                      .ok (tee2sks_error o.setKeyRes,
                           release_active_processing s2, some obj2)
                    else
                      .ok (.OK, { s2 with proc_id := proc_params.id },
                           some obj2)
                | _ =>
                  .ok (.MECHANISM_INVALID, release_active_processing s2,
                       some obj)

/-- `entry_signverify_update` (processing.c lines 1071-1128).  A missing
input buffer or a supplied output buffer yields `SKS_BAD_PARAM` through
the `bail:` label, which releases the active operation; `TEE_MACUpdate`
itself returns no status. -/
def entry_signverify_update (lk : Lookup) (s : Session) (sign : Bool)
    (inBuf outBuf : Option Buf) : Rv × Session :=
  match lk with
  | .noCtrl => (.BAD_PARAM, s)
  | .parseFail rv => (rv, s)
  | .noSession => (.SESSION_HANDLE_INVALID, s)
  | .found =>
    if check_processing_state s (if sign then .SIGNING else .VERIFYING) then
      (.OPERATION_NOT_INITIALIZED, s)
    else
      let rv : Rv :=
        if inBuf.isNone ∨ outBuf.isSome then .BAD_PARAM
        else
          match s.proc_id with
          | .AES_CMAC_GENERAL | .AES_CMAC | .MD5_HMAC | .SHA1_HMAC
          | .SHA224_HMAC | .SHA256_HMAC | .SHA384_HMAC | .SHA512_HMAC
          | .AES_XCBC_MAC => .OK
          | _ => .MECHANISM_INVALID
      if rv ≠ .OK then (rv, release_active_processing s) else (rv, s)

/-- The argument check and mechanism switch of `entry_signverify_final`
(processing.c lines 1162-1192): an input buffer or a missing output
buffer yields `BAD_PARAM`; the MAC mechanisms run the provider MAC final
(`TEE_MACComputeFinal` when signing, which writes the MAC and returns the
size, or `TEE_MACCompareFinal` when verifying, which takes the size by
value); any other mechanism yields `MECHANISM_INVALID`. -/
def signverify_final_step (s : Session) (sign : Bool)
    (inBuf outBuf : Option Buf) (prov : ProvOut) : Step :=
  if inBuf.isSome ∨ outBuf.isNone then
    ⟨.BAD_PARAM, s, outBuf, (outBuf.map (fun b => b.data.length)).getD 0⟩
  else
    match s.proc_id with
    | .AES_CMAC_GENERAL | .AES_CMAC | .MD5_HMAC | .SHA1_HMAC
    | .SHA224_HMAC | .SHA256_HMAC | .SHA384_HMAC | .SHA512_HMAC
    | .AES_XCBC_MAC =>
      if sign then
        ⟨tee2sks_error prov.res, s, provWrite outBuf prov, prov.out_size⟩
      else
        ⟨tee2sks_error prov.res, s, outBuf,
         (outBuf.map (fun b => b.data.length)).getD 0⟩
    | _ =>
      ⟨.MECHANISM_INVALID, s, outBuf,
       (outBuf.map (fun b => b.data.length)).getD 0⟩

/-- `entry_signverify_final` (processing.c lines 1135-1202).  `prov` is
the oracle for `TEE_MACComputeFinal` (sign) or `TEE_MACCompareFinal`
(verify); the compare variant takes the output size by value, so only the
sign path reports a size back. -/
def entry_signverify_final (lk : Lookup) (s : Session) (sign : Bool)
    (inBuf outBuf : Option Buf) (prov : ProvOut) : UFResult :=
  match lk with
  | .noCtrl => ⟨.BAD_PARAM, s, outBuf, outBuf.map (fun b => b.data.length)⟩
  | .parseFail rv => ⟨rv, s, outBuf, outBuf.map (fun b => b.data.length)⟩
  | .noSession =>
      ⟨.SESSION_HANDLE_INVALID, s, outBuf, outBuf.map (fun b => b.data.length)⟩
  | .found =>
    if check_processing_state s (if sign then .SIGNING else .VERIFYING) then
      ⟨.OPERATION_NOT_INITIALIZED, s, outBuf,
       outBuf.map (fun b => b.data.length)⟩
    else
      let step := signverify_final_step s sign inBuf outBuf prov
      let report := if sign ∧ (step.rv = .OK ∨ step.rv = .SHORT_BUFFER) then
                      outBuf.map (fun _ => step.osize)
                    else outBuf.map (fun b => b.data.length)
      if step.rv ≠ .SHORT_BUFFER then
        ⟨step.rv, release_active_processing step.s, step.out, report⟩
      else
        ⟨step.rv, step.s, step.out, report⟩

/-!
## Concrete fixtures used by witnesses and counterexamples
-/

/-- A 16-byte AES key value. -/
def aesKeyBytes : List Nat := List.replicate 16 17

/-- A well-formed AES secret-key object whose provider transient key is
not yet loaded. -/
def aesKeyObj : SksObject :=
  ⟨[(SKS_CKA_CLASS, u32bytes SKS_CKO_SECRET_KEY),
    (SKS_CKA_KEY_TYPE, u32bytes SKS_CKK_AES),
    (SKS_CKA_VALUE, aesKeyBytes)], false⟩

/-- A malformed blob: key type and value present, class attribute absent. -/
def noClassObj : SksObject :=
  ⟨[(SKS_CKA_KEY_TYPE, u32bytes SKS_CKK_AES),
    (SKS_CKA_VALUE, aesKeyBytes)], false⟩

/-- Oracle under which every provider call and policy check succeeds. -/
def okOracle : InitOracle :=
  ⟨.Success, .Success, .Success, .Success, .OK, .OK, .OK, .OK, .OK⟩

/-- A session with no active operation. -/
def readySession : Session := ⟨.READY, .UNDEFINED, false, []⟩

/-- The released-state predicate of the claims: `r` is `s` after its
active operation was torn down — state back to `READY`, mechanism id
cleared to `SKS_UNDEFINED_ID`, provider operation handle freed, and the
AE scratch freed when the released mechanism was CTR/CCM/GCM. -/
def released_from (s r : Session) : Prop :=
  r.state = .READY ∧ r.proc_id = .UNDEFINED ∧ r.tee_op_handle = false ∧
  ((s.proc_id = .AES_CTR ∨ s.proc_id = .AES_CCM ∨ s.proc_id = .AES_GCM) →
    r.scratch = [])

/-!
## Claims
-/

/-- Releasing a session whose mechanism id agrees with `s` establishes
the released-state predicate relative to `s`. -/
theorem release_gives_released_from (s s' : Session)
    (hp : s'.proc_id = s.proc_id) :
    released_from s (release_active_processing s') := by
  refine ⟨rfl, rfl, rfl, fun h => ?_⟩
  rcases h with h | h | h <;> simp [release_active_processing, hp, h]

/-- The cipher-update switch never changes the active mechanism id. -/
theorem cipher_update_step_proc_id (s : Session) (decrypt : Bool)
    (inBuf outBuf : Option Buf) (ae : AeUpd) (prov : ProvOut) :
    (cipher_update_step s decrypt inBuf outBuf ae prov).s.proc_id
      = s.proc_id := by
  unfold cipher_update_step
  split_ifs <;> rfl

/-- When the cipher-update switch reports `SHORT_BUFFER` the session is
untouched (the AE decrypt path only grows the scratch on success). -/
theorem cipher_update_step_sb (s : Session) (decrypt : Bool)
    (inBuf outBuf : Option Buf) (ae : AeUpd) (prov : ProvOut) :
    (cipher_update_step s decrypt inBuf outBuf ae prov).rv = .SHORT_BUFFER →
    (cipher_update_step s decrypt inBuf outBuf ae prov).s = s := by
  unfold cipher_update_step
  split_ifs <;> intro h <;> simp_all

/-- The cipher-final switch never changes the session. -/
theorem cipher_final_step_s (s : Session) (decrypt : Bool)
    (inBuf outBuf : Option Buf) (fin : AeFin) (prov : ProvOut) :
    (cipher_final_step s decrypt inBuf outBuf fin prov).s = s := by
  unfold cipher_final_step
  split_ifs <;> rfl

/-- The sign/verify-final switch never changes the session. -/
theorem signverify_final_step_s (s : Session) (sign : Bool)
    (inBuf outBuf : Option Buf) (prov : ProvOut) :
    (signverify_final_step s sign inBuf outBuf prov).s = s := by
  unfold signverify_final_step
  split
  · rfl
  · split <;> first | rfl | (split_ifs <;> rfl)

/-- Claim C4: a cipher-init or sign/verify-init on a session whose state
is not `READY` does return `OPERATION_ACTIVE`, but the `bail:` path then
calls `release_active_processing`, so the existing active operation is
torn down (state forced to `READY`, mechanism id cleared, operation
handle freed, GCM scratch freed) instead of being left intact.  Evaluated
here on a session in `ENCRYPTING` with an active AES-GCM operation and on
a session in `SIGNING` with an active AES-CMAC operation. -/
theorem C4_init_on_active_session_destroys_operation :
    entry_cipher_init .found ⟨.ENCRYPTING, .AES_GCM, true, [1, 2]⟩ false
        ⟨.AES_ECB, []⟩ (some aesKeyObj) okOracle
      = .ok (.OPERATION_ACTIVE, ⟨.READY, .UNDEFINED, false, []⟩, some aesKeyObj)
    ∧ entry_signverify_init .found ⟨.SIGNING, .AES_CMAC, true, [3]⟩ true
        ⟨.AES_CMAC, []⟩ (some aesKeyObj) okOracle
      = .ok (.OPERATION_ACTIVE, ⟨.READY, .UNDEFINED, false, [3]⟩,
             some aesKeyObj) := by
  decide

/-- Claim C5: `tee_operarion_params` has no case for `SKS_CKM_AES_CBC_PAD`,
so a cipher-init with that mechanism fails there with
`ATTRIBUTE_TYPE_INVALID` and the 16-byte-IV check that would return
`MECHANISM_PARAM_INVALID` is unreachable for it.  Evaluated on a ready
session, a well-formed AES key that passes all policy checks, and a
20-byte CBC_PAD parameter. -/
theorem C5_cbc_pad_rejected_before_param_check :
    entry_cipher_init .found readySession false
        ⟨.AES_CBC_PAD, List.replicate 20 0⟩ (some aesKeyObj) okOracle
      = .ok (.ATTRIBUTE_TYPE_INVALID, ⟨.READY, .UNDEFINED, false, []⟩,
             some aesKeyObj) := by
  decide

/-- Claim C6: when `TEE_AllocateTransientObject` fails, `load_key`
executes `return rv;;` with `rv` still `SKS_OK` from the earlier
`get_tee_object_info`, so it returns `SKS_OK` instead of the translated
provider error (which the standard mapping would turn into `SKS_MEMORY`
here). -/
theorem C6_load_key_alloc_failure_returns_ok :
    load_key aesKeyObj .OutOfMemory .Success = .ok (.OK, aesKeyObj)
    ∧ tee2sks_error .OutOfMemory = .MEMORY := by
  decide

/-- Claim C7 counterexample: a sign/verify update with a missing input
buffer on an active AES-CMAC signing operation returns `BAD_PARAM` but
does not leave the operation active — the session comes back released
(`READY`, mechanism id cleared, operation handle freed). -/
theorem C7_counterexample :
    entry_signverify_update .found ⟨.SIGNING, .AES_CMAC, true, []⟩ true
        none none
      = (.BAD_PARAM, ⟨.READY, .UNDEFINED, false, []⟩)
    ∧ (entry_signverify_update .found ⟨.SIGNING, .AES_CMAC, true, []⟩ true
        none none).2.state ≠ .SIGNING := by
  decide

/-- Claim C8 counterexample: a cipher-final on an active AES-ECB encrypt
operation with a non-empty input buffer is not rejected — the input is
forwarded to the provider's `TEE_CipherDoFinal` and the call returns
`SKS_OK` when the provider succeeds. -/
theorem C8_counterexample :
    (entry_cipher_final .found ⟨.ENCRYPTING, .AES_ECB, true, []⟩ false
        (some ⟨[1]⟩) (some ⟨[0, 0]⟩) ⟨.OK, [], 0⟩ ⟨.Success, [7], 1⟩).rv
      = .OK := by
  decide

/-- Claim C9 counterexample: a cipher-init whose key blob lacks a class
attribute does not abort — `get_class` returns the `SKS_UNDEFINED_ID`
sentinel, the class switch falls to its default, and the entry returns
`SKS_FAILED` as an ordinary error. -/
theorem C9_counterexample :
    entry_cipher_init .found readySession false ⟨.AES_ECB, []⟩
        (some noClassObj) okOracle
      = .ok (.FAILED, ⟨.READY, .UNDEFINED, false, []⟩, some noClassObj) := by
  decide

/-- Claim C2: a cipher or sign/verify update/final whose direction does
not match the session's processing state returns
`OPERATION_NOT_INITIALIZED` and leaves the session (state, mechanism id,
operation handle, scratch) unchanged. -/
theorem C2_state_mismatch_rejected_without_change :
    ∀ (s : Session) (decrypt sign : Bool) (inBuf outBuf : Option Buf)
      (ae : AeUpd) (fin : AeFin) (prov : ProvOut),
      (s.state ≠ (if decrypt then .DECRYPTING else .ENCRYPTING) →
        (entry_cipher_update .found s decrypt inBuf outBuf ae prov).rv
            = .OPERATION_NOT_INITIALIZED
        ∧ (entry_cipher_update .found s decrypt inBuf outBuf ae prov).session
            = s)
      ∧ (s.state ≠ (if decrypt then .DECRYPTING else .ENCRYPTING) →
        (entry_cipher_final .found s decrypt inBuf outBuf fin prov).rv
            = .OPERATION_NOT_INITIALIZED
        ∧ (entry_cipher_final .found s decrypt inBuf outBuf fin prov).session
            = s)
      ∧ (s.state ≠ (if sign then .SIGNING else .VERIFYING) →
        (entry_signverify_update .found s sign inBuf outBuf).1
            = .OPERATION_NOT_INITIALIZED
        ∧ (entry_signverify_update .found s sign inBuf outBuf).2 = s)
      ∧ (s.state ≠ (if sign then .SIGNING else .VERIFYING) →
        (entry_signverify_final .found s sign inBuf outBuf prov).rv
            = .OPERATION_NOT_INITIALIZED
        ∧ (entry_signverify_final .found s sign inBuf outBuf prov).session
            = s) := by
  intro s decrypt sign inBuf outBuf ae fin prov
  refine ⟨fun h => ?_, fun h => ?_, fun h => ?_, fun h => ?_⟩ <;>
    simp [entry_cipher_update, entry_cipher_final, entry_signverify_update,
          entry_signverify_final, check_processing_state, h]

/-- Claim C2 witness: an encrypt-update on a session that is signing. -/
theorem C2_witness :
    (⟨.SIGNING, .AES_CMAC, true, []⟩ : Session).state
        ≠ (if false then ProcState.DECRYPTING else ProcState.ENCRYPTING)
    ∧ (entry_cipher_update .found ⟨.SIGNING, .AES_CMAC, true, []⟩ false
         none none ⟨.OK, []⟩ ⟨.Success, [], 0⟩).rv
        = .OPERATION_NOT_INITIALIZED :=
  ⟨by decide,
   ((C2_state_mismatch_rejected_without_change
       ⟨.SIGNING, .AES_CMAC, true, []⟩ false true none none ⟨.OK, []⟩
       ⟨.OK, [], 0⟩ ⟨.Success, [], 0⟩).1 (by decide)).1⟩

/-- Claim C7 (amended): a sign/verify update with a missing input buffer
or an unexpected output buffer on an active operation returns `BAD_PARAM`,
and the `bail:` path releases the active operation — the session comes
back as `release_active_processing` leaves it, not with the operation
still active. -/
theorem C7_signverify_update_bad_param_releases :
    ∀ (s : Session) (sign : Bool) (inBuf outBuf : Option Buf),
      s.state = (if sign then .SIGNING else .VERIFYING) →
      (inBuf.isNone ∨ outBuf.isSome) →
      entry_signverify_update .found s sign inBuf outBuf
        = (.BAD_PARAM, release_active_processing s) := by
  intro s sign inBuf outBuf hs hio
  have hc : check_processing_state s
      (if sign then .SIGNING else .VERIFYING) = false := by
    simp [check_processing_state, hs]
  rcases hio with h | h <;>
    simp [entry_signverify_update, hc, h]

/-- Claim C7 witness: verify-update with an unexpected output buffer on
an active HMAC-SHA256 verification. -/
theorem C7_witness :
    (⟨.VERIFYING, .SHA256_HMAC, true, []⟩ : Session).state
        = (if false then ProcState.SIGNING else ProcState.VERIFYING)
    ∧ ((none : Option Buf).isNone ∨ (some (⟨[1]⟩ : Buf)).isSome)
    ∧ entry_signverify_update .found ⟨.VERIFYING, .SHA256_HMAC, true, []⟩
        false none (some ⟨[1]⟩)
      = (.BAD_PARAM,
         release_active_processing ⟨.VERIFYING, .SHA256_HMAC, true, []⟩) :=
  ⟨by decide, by decide,
   C7_signverify_update_bad_param_releases ⟨.VERIFYING, .SHA256_HMAC, true, []⟩
     false none (some ⟨[1]⟩) (by decide) (by decide)⟩

/-- Claim C3: a CCM/GCM decrypt update never writes into the caller's
output buffer; when the call succeeds the reported output size is 0 and
the produced plaintext has only been appended to the per-session scratch. -/
theorem C3_ae_decrypt_update_emits_nothing :
    ∀ (s : Session) (inBuf outBuf : Option Buf) (ae : AeUpd)
      (prov : ProvOut),
      s.state = .DECRYPTING →
      (s.proc_id = .AES_CCM ∨ s.proc_id = .AES_GCM) →
      (entry_cipher_update .found s true inBuf outBuf ae prov).out = outBuf
      ∧ ((entry_cipher_update .found s true inBuf outBuf ae prov).rv = .OK →
         (entry_cipher_update .found s true inBuf outBuf ae prov).out_report
             = outBuf.map (fun _ => 0)
         ∧ (entry_cipher_update .found s true inBuf outBuf ae
              prov).session.scratch = s.scratch ++ ae.produced) := by
  intro s inBuf outBuf ae prov hs hp
  have hc : check_processing_state s
      (if true then ProcState.DECRYPTING else .ENCRYPTING) = false := by
    simp [check_processing_state, hs]
  rcases hp with hp | hp <;>
    · simp only [entry_cipher_update, cipher_update_step, hc,
                 Bool.false_eq_true, if_false, hp]
      split_ifs <;> simp_all <;> cases outBuf <;> simp_all

/-- Claim C3 witness: a GCM decrypt update with input and output buffers
supplied, the AE helper succeeding and producing two plaintext bytes. -/
theorem C3_witness :
    (⟨.DECRYPTING, .AES_GCM, true, [9]⟩ : Session).state = .DECRYPTING
    ∧ ((⟨.DECRYPTING, .AES_GCM, true, [9]⟩ : Session).proc_id = .AES_CCM
       ∨ (⟨.DECRYPTING, .AES_GCM, true, [9]⟩ : Session).proc_id = .AES_GCM)
    ∧ (entry_cipher_update .found ⟨.DECRYPTING, .AES_GCM, true, [9]⟩ true
         (some ⟨[1, 2]⟩) (some ⟨[0, 0]⟩) ⟨.OK, [4, 5]⟩
         ⟨.Success, [], 0⟩).out = some ⟨[0, 0]⟩ :=
  ⟨by decide, by decide,
   (C3_ae_decrypt_update_emits_nothing ⟨.DECRYPTING, .AES_GCM, true, [9]⟩
      (some ⟨[1, 2]⟩) (some ⟨[0, 0]⟩) ⟨.OK, [4, 5]⟩ ⟨.Success, [], 0⟩
      (by decide) (by decide)).1⟩

/-- Claim C1: on a session with an active matching operation,
`SHORT_BUFFER` is the only non-OK result of an update/final that leaves
the operation active (the session is returned untouched); every other
outcome — OK on a final, or any error on update or final — releases the
operation: state back to `READY`, mechanism id cleared to
`SKS_UNDEFINED_ID`, provider handle freed, and the AE scratch freed when
the mechanism was CTR/CCM/GCM.  OK on an update keeps the operation
active, as the state machine requires. -/
theorem C1_only_short_buffer_keeps_operation_active :
    ∀ (s : Session) (decrypt sign : Bool) (inBuf outBuf : Option Buf)
      (ae : AeUpd) (fin : AeFin) (prov : ProvOut),
      (s.state = (if decrypt then .DECRYPTING else .ENCRYPTING) →
        ((entry_cipher_update .found s decrypt inBuf outBuf ae prov).rv
            = .SHORT_BUFFER →
          (entry_cipher_update .found s decrypt inBuf outBuf ae
            prov).session = s)
        ∧ ((entry_cipher_update .found s decrypt inBuf outBuf ae prov).rv
              ≠ .OK →
           (entry_cipher_update .found s decrypt inBuf outBuf ae prov).rv
              ≠ .SHORT_BUFFER →
           released_from s (entry_cipher_update .found s decrypt inBuf
             outBuf ae prov).session))
      ∧ (s.state = (if decrypt then .DECRYPTING else .ENCRYPTING) →
        ((entry_cipher_final .found s decrypt inBuf outBuf fin prov).rv
            = .SHORT_BUFFER →
          (entry_cipher_final .found s decrypt inBuf outBuf fin
            prov).session = s)
        ∧ ((entry_cipher_final .found s decrypt inBuf outBuf fin prov).rv
              ≠ .SHORT_BUFFER →
           released_from s (entry_cipher_final .found s decrypt inBuf
             outBuf fin prov).session))
      ∧ (s.state = (if sign then .SIGNING else .VERIFYING) →
        ((entry_signverify_update .found s sign inBuf outBuf).1 = .OK →
          (entry_signverify_update .found s sign inBuf outBuf).2 = s)
        ∧ ((entry_signverify_update .found s sign inBuf outBuf).1 ≠ .OK →
          released_from s
            (entry_signverify_update .found s sign inBuf outBuf).2))
      ∧ (s.state = (if sign then .SIGNING else .VERIFYING) →
        ((entry_signverify_final .found s sign inBuf outBuf prov).rv
            = .SHORT_BUFFER →
          (entry_signverify_final .found s sign inBuf outBuf prov).session
            = s)
        ∧ ((entry_signverify_final .found s sign inBuf outBuf prov).rv
              ≠ .SHORT_BUFFER →
           released_from s (entry_signverify_final .found s sign inBuf
             outBuf prov).session)) := by
  intro s decrypt sign inBuf outBuf ae fin prov
  refine ⟨fun hs => ?_, fun hs => ?_, fun hs => ?_, fun hs => ?_⟩
  · have hc : check_processing_state s
        (if decrypt then .DECRYPTING else .ENCRYPTING) = false := by
      simp [check_processing_state, hs]
    constructor
    · simp only [entry_cipher_update, hc, Bool.false_eq_true, if_false]
      split_ifs <;> intro hrv <;>
        first
          | exact cipher_update_step_sb s decrypt inBuf outBuf ae prov hrv
          | simp_all
    · simp only [entry_cipher_update, hc, Bool.false_eq_true, if_false]
      split_ifs <;> intro h1 h2 <;>
        first
          | exact release_gives_released_from _ _
              (cipher_update_step_proc_id s decrypt inBuf outBuf ae prov)
          | simp_all
  · have hc : check_processing_state s
        (if decrypt then .DECRYPTING else .ENCRYPTING) = false := by
      simp [check_processing_state, hs]
    constructor
    · simp only [entry_cipher_final, hc, Bool.false_eq_true, if_false]
      split_ifs <;> intro hrv <;>
        first
          | exact cipher_final_step_s s decrypt inBuf outBuf fin prov
          | simp_all
    · simp only [entry_cipher_final, hc, Bool.false_eq_true, if_false]
      split_ifs <;> intro h1 <;>
        first
          | exact release_gives_released_from _ _
              (by rw [cipher_final_step_s])
          | simp_all
  · have hc : check_processing_state s
        (if sign then .SIGNING else .VERIFYING) = false := by
      simp [check_processing_state, hs]
    constructor
    · simp only [entry_signverify_update, hc, Bool.false_eq_true, if_false]
      split_ifs <;> intro hrv <;> simp_all
    · simp only [entry_signverify_update, hc, Bool.false_eq_true, if_false]
      split_ifs <;> intro h1 <;>
        first
          | exact release_gives_released_from _ _ rfl
          | simp_all
  · have hc : check_processing_state s
        (if sign then .SIGNING else .VERIFYING) = false := by
      simp [check_processing_state, hs]
    constructor
    · simp only [entry_signverify_final, hc, Bool.false_eq_true, if_false]
      split_ifs <;> intro hrv <;>
        first
          | exact signverify_final_step_s s sign inBuf outBuf prov
          | simp_all
    · simp only [entry_signverify_final, hc, Bool.false_eq_true, if_false]
      split_ifs <;> intro h1 <;>
        first
          | exact release_gives_released_from _ _
              (by rw [signverify_final_step_s])
          | simp_all

/-- Claim C1 witness: a provider failure on a non-AE cipher update on an
active AES-CBC encryption releases the operation. -/
theorem C1_witness :
    (⟨.ENCRYPTING, .AES_CBC, true, []⟩ : Session).state
        = (if false then ProcState.DECRYPTING else ProcState.ENCRYPTING)
    ∧ (entry_cipher_update .found ⟨.ENCRYPTING, .AES_CBC, true, []⟩ false
         (some ⟨[1]⟩) (some ⟨[0]⟩) ⟨.OK, []⟩ ⟨.Generic, [], 0⟩).rv ≠ .OK
    ∧ released_from ⟨.ENCRYPTING, .AES_CBC, true, []⟩
        (entry_cipher_update .found ⟨.ENCRYPTING, .AES_CBC, true, []⟩ false
          (some ⟨[1]⟩) (some ⟨[0]⟩) ⟨.OK, []⟩ ⟨.Generic, [], 0⟩).session :=
  ⟨by decide, by decide,
   ((C1_only_short_buffer_keeps_operation_active
       ⟨.ENCRYPTING, .AES_CBC, true, []⟩ false false (some ⟨[1]⟩)
       (some ⟨[0]⟩) ⟨.OK, []⟩ ⟨.OK, [], 0⟩ ⟨.Generic, [], 0⟩).1
     (by decide)).2 (by decide) (by decide)⟩

/-- Claim C8 (amended): a cipher-final rejects a non-empty input buffer
with `BAD_PARAM` (releasing the operation) only for the AE mechanisms
CCM/GCM; for every other mechanism the input is not checked but passed to
the provider's `TEE_CipherDoFinal`, whose translated result (or its
no-output-buffer `BAD_PARAM` conversion) is returned. -/
theorem C8_final_empty_input_check_is_ae_only :
    ∀ (s : Session) (decrypt : Bool) (inBuf outBuf : Option Buf)
      (fin : AeFin) (prov : ProvOut),
      s.state = (if decrypt then .DECRYPTING else .ENCRYPTING) →
      ((s.proc_id = .AES_CCM ∨ s.proc_id = .AES_GCM) →
        (inBuf.map (fun b => b.data.length)).getD 0 ≠ 0 →
        (entry_cipher_final .found s decrypt inBuf outBuf fin prov).rv
            = .BAD_PARAM
        ∧ released_from s
            (entry_cipher_final .found s decrypt inBuf outBuf fin
              prov).session)
      ∧ (s.proc_id ≠ .AES_CCM → s.proc_id ≠ .AES_GCM →
        ((entry_cipher_final .found s decrypt inBuf outBuf fin prov).rv
            = tee2sks_error prov.res
         ∨ ((entry_cipher_final .found s decrypt inBuf outBuf fin prov).rv
              = .BAD_PARAM
            ∧ outBuf = none ∧ tee2sks_error prov.res = .SHORT_BUFFER))) := by
  intro s decrypt inBuf outBuf fin prov hs
  have hc : check_processing_state s
      (if decrypt then .DECRYPTING else .ENCRYPTING) = false := by
    simp [check_processing_state, hs]
  constructor
  · intro hp hin
    have hstep : cipher_final_step s decrypt inBuf outBuf fin prov
        = ⟨.BAD_PARAM, s, outBuf,
           (outBuf.map (fun b => b.data.length)).getD 0⟩ := by
      unfold cipher_final_step
      rw [if_pos hp, if_pos hin]
    simp only [entry_cipher_final, hc, Bool.false_eq_true, if_false, hstep]
    refine ⟨by split_ifs <;> simp_all, ?_⟩
    split_ifs <;>
      first
        | exact release_gives_released_from _ _ rfl
        | simp_all
  · intro h1 h2
    have hstep : cipher_final_step s decrypt inBuf outBuf fin prov
        = ⟨tee2sks_error prov.res, s, provWrite outBuf prov,
           prov.out_size⟩ := by
      unfold cipher_final_step
      rw [if_neg]
      simp [h1, h2]
    simp only [entry_cipher_final, hc, Bool.false_eq_true, if_false, hstep]
    split_ifs <;> simp_all [Option.isNone_iff_eq_none]

/-- Claim C8 witness: a CTR-mode final (non-AE) with a failing provider
returns the translated provider error even with a non-empty input, and a
GCM final with non-empty input returns `BAD_PARAM`. -/
theorem C8_witness :
    (⟨.ENCRYPTING, .AES_GCM, true, []⟩ : Session).state
        = (if false then ProcState.DECRYPTING else ProcState.ENCRYPTING)
    ∧ (entry_cipher_final .found ⟨.ENCRYPTING, .AES_GCM, true, []⟩ false
         (some ⟨[1]⟩) (some ⟨[0]⟩) ⟨.OK, [], 0⟩ ⟨.Success, [], 0⟩).rv
        = .BAD_PARAM :=
  ⟨by decide,
   ((C8_final_empty_input_check_is_ae_only ⟨.ENCRYPTING, .AES_GCM, true, []⟩
       false (some ⟨[1]⟩) (some ⟨[0]⟩) ⟨.OK, [], 0⟩ ⟨.Success, [], 0⟩
       (by decide)).1 (by decide) (by decide)).1⟩

/-- Claim C9 (amended): `get_bool` panics on an attribute id with no
boolean bit mapping, and allocating a provider operation while the
session already holds one panics inside `tee_operarion_params`; but a
class lookup on a blob lacking a class attribute does not abort — it
returns the `SKS_UNDEFINED_ID` sentinel and callers fail with an
ordinary error. -/
theorem C9_contract_violation_behaviour :
    (∀ (h : AttrsHead) (a : Nat), sks_attr2boolprop_shift a < 0 →
        get_bool h a = .panic)
    ∧ (∀ (s : Session) (r : TeeResult), s.tee_op_handle = true →
        tee_operarion_params s ⟨.AES_ECB, []⟩ aesKeyObj .ENCRYPT r = .panic)
    ∧ (∀ (b : Blob), get_attribute_ptr b SKS_CKA_CLASS = none →
        get_class b = SKS_UNDEFINED_ID) := by
  refine ⟨fun h a hneg => ?_, fun s r hop => ?_, fun b hb => ?_⟩
  · simp [get_bool, hneg]
  · obtain ⟨st, pid, oph, scr⟩ := s
    simp only at hop
    subst hop
    rfl
  · simp [get_class, get_attribute, hb]

/-- Claim C9 witness: `SKS_CKA_VALUE` has no boolean mapping, so
`get_bool` panics on it; a second operation allocation on a session
already holding a handle panics; the empty blob has no class and yields
the sentinel. -/
theorem C9_witness :
    sks_attr2boolprop_shift SKS_CKA_VALUE < 0
    ∧ get_bool ⟨0, 0, []⟩ SKS_CKA_VALUE = .panic
    ∧ tee_operarion_params ⟨.READY, .UNDEFINED, true, []⟩ ⟨.AES_ECB, []⟩
        aesKeyObj .ENCRYPT .Success = .panic
    ∧ get_class [] = SKS_UNDEFINED_ID :=
  ⟨by decide,
   C9_contract_violation_behaviour.1 ⟨0, 0, []⟩ SKS_CKA_VALUE (by decide),
   C9_contract_violation_behaviour.2.1 ⟨.READY, .UNDEFINED, true, []⟩
     .Success rfl,
   C9_contract_violation_behaviour.2.2 [] (by decide)⟩

/-- Claim C10: on an active cipher operation with no output buffer, a
provider `SHORT_BUFFER` is converted to `BAD_PARAM` and the operation is
released; `SHORT_BUFFER` can only reach the caller of an update or final
when an output buffer was supplied. -/
theorem C10_short_buffer_without_out_becomes_bad_param :
    ∀ (s : Session) (decrypt : Bool) (inBuf outBuf : Option Buf)
      (ae : AeUpd) (fin : AeFin) (prov : ProvOut),
      s.state = (if decrypt then .DECRYPTING else .ENCRYPTING) →
      (((cipher_update_step s decrypt inBuf none ae prov).rv
          = .SHORT_BUFFER) →
        (entry_cipher_update .found s decrypt inBuf none ae prov).rv
            = .BAD_PARAM
        ∧ released_from s
            (entry_cipher_update .found s decrypt inBuf none ae
              prov).session)
      ∧ (((cipher_final_step s decrypt inBuf none fin prov).rv
            = .SHORT_BUFFER) →
        (entry_cipher_final .found s decrypt inBuf none fin prov).rv
            = .BAD_PARAM
        ∧ released_from s
            (entry_cipher_final .found s decrypt inBuf none fin
              prov).session)
      ∧ ((entry_cipher_update .found s decrypt inBuf outBuf ae prov).rv
            = .SHORT_BUFFER → outBuf.isSome = true)
      ∧ ((entry_cipher_final .found s decrypt inBuf outBuf fin prov).rv
            = .SHORT_BUFFER → outBuf.isSome = true) := by
  intro s decrypt inBuf outBuf ae fin prov hs
  have hc : check_processing_state s
      (if decrypt then .DECRYPTING else .ENCRYPTING) = false := by
    simp [check_processing_state, hs]
  refine ⟨fun hsb => ?_, fun hsb => ?_, fun hsb => ?_, fun hsb => ?_⟩
  · simp only [entry_cipher_update, hc, Bool.false_eq_true, if_false, hsb]
    refine ⟨by split_ifs <;> simp_all, ?_⟩
    split_ifs <;>
      first
        | exact release_gives_released_from _ _
            (cipher_update_step_proc_id s decrypt inBuf none ae prov)
        | simp_all
  · simp only [entry_cipher_final, hc, Bool.false_eq_true, if_false, hsb]
    refine ⟨by split_ifs <;> simp_all, ?_⟩
    split_ifs <;>
      first
        | exact release_gives_released_from _ _
            (by rw [cipher_final_step_s])
        | simp_all
  · revert hsb
    simp only [entry_cipher_update, hc, Bool.false_eq_true, if_false]
    split_ifs <;> intro hsb <;> simp_all [Option.isNone_iff_eq_none]
  · revert hsb
    simp only [entry_cipher_final, hc, Bool.false_eq_true, if_false]
    split_ifs <;> intro hsb <;> simp_all [Option.isNone_iff_eq_none]

/-- Claim C10 witness: a GCM decrypt update with no output buffer whose
AE helper reports `SHORT_BUFFER` returns `BAD_PARAM` and releases. -/
theorem C10_witness :
    (⟨.DECRYPTING, .AES_GCM, true, [5]⟩ : Session).state
        = (if true then ProcState.DECRYPTING else ProcState.ENCRYPTING)
    ∧ (cipher_update_step ⟨.DECRYPTING, .AES_GCM, true, [5]⟩ true
         (some ⟨[1]⟩) none ⟨.SHORT_BUFFER, []⟩ ⟨.Success, [], 0⟩).rv
        = .SHORT_BUFFER
    ∧ (entry_cipher_update .found ⟨.DECRYPTING, .AES_GCM, true, [5]⟩ true
         (some ⟨[1]⟩) none ⟨.SHORT_BUFFER, []⟩ ⟨.Success, [], 0⟩).rv
        = .BAD_PARAM :=
  ⟨by decide, by decide,
   ((C10_short_buffer_without_out_becomes_bad_param
       ⟨.DECRYPTING, .AES_GCM, true, [5]⟩ true (some ⟨[1]⟩) none
       ⟨.SHORT_BUFFER, []⟩ ⟨.OK, [], 0⟩ ⟨.Success, [], 0⟩
       (by decide)).1 (by decide)).1⟩

end SKS
